import Mathlib

/-!
Verification development for the `saharan_cli` content-generation pipeline
(`src/main.py`, `src/bullets.py`, `src/banana.py`, `src/image.py`).

Strings are modelled as `List Char` (`Str`).  External collaborators
(the JSON decoder of the standard library, the PIL raster decoder, and the
text/image generation services) are modelled as explicit function
parameters; everything the repository's own code does to their results is
translated directly from the source.  Raised Python exceptions are
modelled with `Except`/`Option`.
-/

namespace Saharan

abbrev Str := List Char

/-- Whitespace as stripped by Python `str.strip()` (ASCII whitespace). -/
def pyIsSpace (c : Char) : Bool :=
  c = ' ' ∨ c = '\t' ∨ c = '\n' ∨ c = '\r' ∨ c = '\x0b' ∨ c = '\x0c'

/-- Python `str.strip()`: drop whitespace from both ends. -/
def pyStrip (s : Str) : Str :=
  ((s.dropWhile pyIsSpace).reverse.dropWhile pyIsSpace).reverse

/-- Python `str.find(c)` for a single character: index of the first
occurrence, `none` standing for Python's `-1`. -/
def strFind : Str → Char → Option Nat
  | [], _ => none
  | a :: s, c => if a = c then some 0 else (strFind s c).map (· + 1)

/-- Python `str.rfind(c)` for a single character: index of the last
occurrence, `none` standing for Python's `-1`. -/
def strRFind (s : Str) (c : Char) : Option Nat :=
  match strFind s.reverse c with
  | none => none
  | some i => some (s.length - 1 - i)

/-- JSON-like Python values as produced by `json.loads`. -/
inductive JValue where
  | null
  | bool (b : Bool)
  | num (n : Int)
  | str (s : Str)
  | arr (xs : List JValue)
  | obj (fields : List (Str × JValue))

/-- Python runtime errors that the translated code can raise. -/
inductive PyErr where
  | keyError (k : Str)
  | attributeError
  | typeError
  | indexError
  | fileNotFound
deriving Repr, DecidableEq

/-- Dictionary lookup (Python dict keys are unique; first match). -/
def jlookup : List (Str × JValue) → Str → Option JValue
  | [], _ => none
  | (k, v) :: fs, key => if k = key then some v else jlookup fs key

/-- Python `d.get(key, default)`: `AttributeError` when the receiver is
not a dict. -/
def pyGet (v : JValue) (key : Str) (default : JValue) : Except PyErr JValue :=
  match v with
  | .obj fs => .ok ((jlookup fs key).getD default)
  | _ => .error .attributeError

/-- Python `d[key]` subscription: `KeyError` for a missing key,
`TypeError` when the receiver is not a dict. -/
def pySubscript (v : JValue) (key : Str) : Except PyErr JValue :=
  match v with
  | .obj fs =>
    match jlookup fs key with
    | some x => .ok x
    | none => .error (.keyError key)
  | _ => .error .typeError

/-- Use of a value as a Python list (iteration, `len`, `append`, slicing).
A non-list value is modelled as a `TypeError`. -/
def pyAsList : JValue → Except PyErr (List JValue)
  | .arr xs => .ok xs
  | _ => .error .typeError

/-- Boolean success test for `Except` results. -/
def exceptOk {α : Type} : Except PyErr α → Bool
  | .ok _ => true
  | .error _ => false

/-- `_get_llm_json_response` of `src/main.py` (identical to
`_extract_json` of `src/bullets.py`): try a direct parse of the whole
text; on failure take the substring from the first `\x7b` to the last
`\x7d` (inclusive) when the latter lies strictly after the former and
parse that; otherwise re-raise (modelled as `none`).  The underlying
`json.loads` is the external parameter `parse`, with `none` standing for
a raised exception. -/
def get_llm_json_response (parse : Str → Option JValue) (text : Str) : Option JValue :=
  match parse text with
  | some v => some v
  | none =>
    match strFind text '{', strRFind text '}' with
    | some l, some r =>
        if l < r then parse ((text.drop l).take (r + 1 - l)) else none
    | _, _ => none

/-- The canonical placeholder bullet `_blank_item()` of `src/main.py`
(the string literals reproduce the file's exact characters, including its
mojibake em-dash). -/
def blank_item : JValue :=
  .obj [
    (("heading").data, .str ("Encourages Active, Independent Play").data),
    (("customer_benefit").data,
      .str ("Helps children build balance, confidence, and coordination through natural movement and exploration.").data),
    (("key_feature").data,
      .str ("Montessori-inspired 3-in-1 climbing set includes a foldable triangle, reversible ramp, and arch for endless play configurations.").data),
    (("proof_or_differentiator").data,
      .str ("Designed to support gross motor skill development while keeping kids active and engaged indoors ‚Äî no screens required.").data)]

/-- The `while len(bullets) < 3: bullets.append(_blank_item())` loop of
`src/main.py`, with an explicit iteration bound so that it reduces by
computation (each pass appends one item and the loop stops as soon as
the length reaches 3, so 3 passes always suffice —
`padBulletsGo_eq_append` proves the bound immaterial). -/
def padBulletsGo : Nat → List JValue → List JValue
  | 0, bs => bs
  | fuel + 1, bs =>
    if bs.length < 3 then padBulletsGo fuel (bs ++ [blank_item]) else bs

/-- The padding loop of `src/main.py`. -/
def padBullets (bs : List JValue) : List JValue :=
  padBulletsGo 3 bs

/-- Bullet normalization of `src/main.py`: the padding loop followed by
`bullets = bullets[:3]`. -/
def normalizeBullets (bs : List JValue) : List JValue :=
  (padBullets bs).take 3

/-- Decimal digit characters of a natural number, with an explicit fuel
so that the definition reduces by computation (`n` itself always
suffices as fuel since the argument at least halves each step). -/
def natStrGo : Nat → Nat → Str → Str
  | 0, _, acc => acc
  | fuel + 1, n, acc =>
    if n = 0 then acc
    else natStrGo fuel (n / 10) (Char.ofNat (48 + n % 10) :: acc)

/-- Decimal rendering of a natural number (helper for Python f-string
interpolation of integers and for output file names). -/
def natStr (n : Nat) : Str :=
  if n = 0 then ['0'] else natStrGo n n []

/-- Decimal rendering of an integer. -/
def intStr (i : Int) : Str :=
  if i < 0 then '-' :: natStr i.natAbs else natStr i.natAbs

/-- Model of Python `str()` as used by f-string interpolation.  Strings
interpolate as themselves, numbers and the constants by their usual
textual form; the rendering of nested containers (never produced by the
pipeline's prompts and irrelevant to every property below) is modelled by
an inert marker. -/
def pyStr : JValue → Str
  | .str s => s
  | .num n => intStr n
  | .bool b => if b then ("True").data else ("False").data
  | .null => ("None").data
  | .arr _ => ("<list>").data
  | .obj _ => ("<dict>").data

/-- Python `sep.join(parts)`. -/
def joinSep (sep : Str) : List Str → Str
  | [] => []
  | [x] => x
  | x :: y :: xs => x ++ sep ++ joinSep sep (y :: xs)

/-- `stringify_module` of `src/main.py`: f-string subscriptions of the
five module fields, in source order; a missing key raises `KeyError`.
The quote characters reproduce the file's exact (mojibake) bytes. -/
def stringify_module (obj : JValue) : Except PyErr Str := do
  let ty ← pySubscript obj (("type").data)
  let ti ← pySubscript obj (("title").data)
  let vc ← pySubscript obj (("visual_concept").data)
  let hl ← pySubscript obj (("headline").data)
  let st ← pySubscript obj (("subtext").data)
  .ok (pyStr ty ++ (": ‚Äú").data ++ pyStr ti ++ ("‚Äù\n\n").data ++
    ("Visual Concept:\n").data ++ pyStr vc ++ ("\n\n").data ++
    ("Headline:\n‚Äú").data ++ pyStr hl ++ ("‚Äù\n\n").data ++
    ("Subtext:\n").data ++ pyStr st)

/-- The five module field names, in the subscription order of
`stringify_module`. -/
def moduleKeys : List Str :=
  [("type").data, ("title").data, ("visual_concept").data,
   ("headline").data, ("subtext").data]

/-- The four bullet field names, in the access order of the bullet
rendering loop. -/
def bulletKeys : List Str :=
  [("heading").data, ("customer_benefit").data, ("key_feature").data,
   ("proof_or_differentiator").data]

/-- `item.get(key, '')` followed by `.strip()`, as used for every bullet
field in `src/main.py`/`src/bullets.py`: a missing key yields the empty
string; a non-dict item or a non-string value raises `AttributeError`
(no `.get`, resp. no `.strip`). -/
def getFieldStripped (item : JValue) (key : Str) : Except PyErr Str := do
  let v ← pyGet item key (.str [])
  match v with
  | .str s => .ok (pyStrip s)
  | _ => .error .attributeError

/-- The four stripped bullet fields, in the evaluation order of the
source (the source reads each field twice — once for the flat block and
once for the numbered lines — with identical pure results, so they are
read once here). -/
def bulletFields (item : JValue) : Except PyErr (Str × Str × Str × Str) := do
  let h ← getFieldStripped item (("heading").data)
  let cb ← getFieldStripped item (("customer_benefit").data)
  let kf ← getFieldStripped item (("key_feature").data)
  let pd ← getFieldStripped item (("proof_or_differentiator").data)
  .ok (h, cb, kf, pd)

/-- The flat `bullets.json` block built from one bullet's fields
(`text_block` in the source). -/
def mkFlatBlock (t : Str × Str × Str × Str) : Str :=
  t.1 ++ ("\n\nCustomer Benefit: ").data ++ t.2.1 ++
    ("\nKey Feature: ").data ++ t.2.2.1 ++
    ("\nProof / Differentiator: ").data ++ t.2.2.2

/-- The four numbered `bullets.txt` lines built from one bullet's fields
(`idx` is the one-based display index of the source's
`enumerate(bullets, start=1)`). -/
def mkTxtLines (idx : Nat) (t : Str × Str × Str × Str) : List Str :=
  [natStr idx ++ (". ").data ++ t.1,
   ("Customer Benefit: ").data ++ t.2.1,
   ("Key Feature: ").data ++ t.2.2.1,
   ("Proof / Differentiator: ").data ++ t.2.2.2]

/-- One iteration of the bullet-rendering loop: the flat block and the
text lines (with the separating blank line after every item but the
last). -/
def renderBulletsGo (total : Nat) : Nat → List JValue → Except PyErr (List Str × List Str)
  | _, [] => .ok ([], [])
  | idx, item :: rest => do
    let t ← bulletFields item
    let (lines, flats) ← renderBulletsGo total (idx + 1) rest
    .ok ((mkTxtLines idx t ++ if idx < total then [[]] else []) ++ lines,
         mkFlatBlock t :: flats)

/-- The bullet-rendering loop of `src/main.py` lines 301–319: produces
the `lines` of `bullets.txt` and the `flat_bullets` of `bullets.json`. -/
def renderBullets (bullets : List JValue) : Except PyErr (List Str × List Str) :=
  renderBulletsGo bullets.length 1 bullets

/-- Console output of the program, one constructor per print/echo
statement of the source, carrying exactly the data interpolated into the
message that the properties below speak about. -/
inductive Msg where
  | titleEcho (title : Str)
  | generatingBullets
  | tokensBullets
  | bulletsSaved
  | generatingModule
  | tokensModules
  | modulesWritten
  | generatingImage
  | generatingBaseImage (shownIdx : Nat)
  | savedFinalImage (shownIdx : Nat)
  | modelNote (text : Str)
  | noImagesWarning
  | generatedImages (paths : List Str)
  | runtime
deriving Repr, DecidableEq

/-- The only warning the sources can emit is `src/banana.py`'s red
`No images returned` notice; every other message is an unconditional
progress line. -/
def isWarningMsg : Msg → Bool
  | .noImagesWarning => true
  | _ => false

/-- The bullet stage of `main()` in `src/main.py` (lines 282–326): parse
with fallback to `\x7b"bullets": []\x7d`, extract the `bullets` entry,
normalize to exactly 3 items, and render both durable representations.
Returns the `bullets.txt` content and the `bullets.json` string array. -/
def bulletStage (parse : Str → Option JValue) (raw : Str) : Except PyErr (Str × List Str) := do
  let bullets_data :=
    (get_llm_json_response parse raw).getD (.obj [(("bullets").data, .arr [])])
  let bv ← pyGet bullets_data (("bullets").data) (.arr [])
  let bullets0 ← pyAsList bv
  let bullets := normalizeBullets bullets0
  let (lines, flats) ← renderBullets bullets
  .ok (joinSep ['\n'] lines, flats)

/-- The `for module in modules` stringification loop of `main()`
(lines 348–351): append `stringify_module(module)` for each module, a
raised `KeyError` aborting the loop. -/
def stringifyAll : List JValue → Except PyErr (List Str)
  | [] => .ok []
  | m :: ms => do
    let s ← stringify_module m
    let rest ← stringifyAll ms
    .ok (s :: rest)

/-- The module stage of `main()` in `src/main.py` (lines 340–351): strip
the raw response, parse with fallback to `\x7b"modules": []\x7d`, extract
the `modules` entry and stringify every module block.  A `KeyError`
raised by `stringify_module` propagates (there is no surrounding
try/except). -/
def moduleStage (parse : Str → Option JValue) (rawModules : Str) : Except PyErr (List Str) := do
  let content := pyStrip rawModules
  let modules_data :=
    (get_llm_json_response parse content).getD (.obj [(("modules").data, .arr [])])
  let mv ← pyGet modules_data (("modules").data) (.arr [])
  let modules ← pyAsList mv
  stringifyAll modules

/-- Target Amazon A+ size (`TARGET_W, TARGET_H = 970, 600`). -/
def TARGET_W : Nat := 970
/-- Target Amazon A+ size (`TARGET_W, TARGET_H = 970, 600`). -/
def TARGET_H : Nat := 600
/-- Native OpenAI generation size (`GEN_W, GEN_H = 1536, 1024`). -/
def GEN_W : Nat := 1536
/-- Native OpenAI generation size (`GEN_W, GEN_H = 1536, 1024`). -/
def GEN_H : Nat := 1024

/-- PIL resampling filters used by the sources. -/
inductive ResizeFilter where
  | lanczos
deriving Repr, DecidableEq

/-- A PIL image as the sources manipulate it: a raster decoded from an
encoded payload (its native resolution comes from the external decoder),
a blank transparent canvas, a mode conversion, or a resize. -/
inductive PImage where
  | raster (native : Nat × Nat) (payload : Str)
  | canvas (w h : Nat)
  | converted (src : PImage) (mode : Str)
  | resized (src : PImage) (w h : Nat) (f : ResizeFilter)
deriving Repr, DecidableEq

/-- Pixel width of an image. -/
def PImage.width : PImage → Nat
  | .raster n _ => n.1
  | .canvas w _ => w
  | .converted s _ => s.width
  | .resized _ w _ _ => w

/-- Pixel height of an image. -/
def PImage.height : PImage → Nat
  | .raster n _ => n.2
  | .canvas _ h => h
  | .converted s _ => s.height
  | .resized _ _ h _ => h

/-- `_build_image_prompt` of `src/main.py`: the fixed system message and
placement guidelines around one module's stringified instruction (string
literals reproduce the file's exact mojibake bytes). -/
def build_image_prompt (module_instruction : Str) : Str :=
  ("Create a 970:600 px full module (strictly follow this size for the generated module, don‚Äôt generate other sizes) for the product following the instructions below.\nMake sure to read the instructions carefully and include all required text without missing any details.\nDon‚Äôt change the look of the submitted logo if included.").data ++
  ("\n\nInstructions:\n").data ++ module_instruction ++
  ("\n\nPlacement guidelines:\n- Include both the provided PRODUCT and LOGO in the final image.\n- Keep the LOGO pristine (no visual alterations); place it cleanly (e.g., top-right).\n- Display the PRODUCT prominently (left or center-left) with space for text on the right.\n- Maintain a cohesive, premium, Montessori-inspired tone and color harmony.\n").data

/-- Record of one `generate_image` invocation of `src/main.py`. -/
structure ImgCall where
  idx : Nat
  instruction : Str
  prompt : Str
  size : Nat × Nat
  msgs : List Msg
  saved : Option (Str × PImage)
  err : Option PyErr
deriving Repr, DecidableEq

/-- `generate_image` of `src/main.py` (lines 213–241): sends the prompt
built from the instruction at the native size, takes `result.data[0]`
(raising `IndexError` when the service returned no image), decodes the
payload and persists it resized to exactly 970x600 with Lanczos
resampling, named by the zero-based `idx`.  `decode` is the external
base64+PIL decoder giving the native resolution of a payload;
`respData` is the list of `b64_json` payloads returned by the service. -/
def generate_image (decode : Str → Nat × Nat) (instruction : Str) (idx : Nat)
    (respData : List Str) : ImgCall :=
  match respData with
  | [] =>
    { idx, instruction, prompt := build_image_prompt instruction,
      size := (GEN_W, GEN_H), msgs := [.generatingBaseImage idx],
      saved := none, err := some .indexError }
  | b64 :: _ =>
    { idx, instruction, prompt := build_image_prompt instruction,
      size := (GEN_W, GEN_H),
      msgs := [.generatingBaseImage idx, .savedFinalImage idx],
      saved := some ((("image_").data ++ natStr idx ++ (".png").data),
        .resized (.raster (decode b64) b64) TARGET_W TARGET_H .lanczos),
      err := none }

/-- The per-module image loop of `main()` (lines 360–362): one
`generate_image` call per stringified module block, in order, stopping at
the first uncaught exception.  `resps` gives the service response for
each call index. -/
def imageStageGo (decode : Str → Nat × Nat) (resps : Nat → List Str) :
    Nat → List Str → List ImgCall × Option PyErr
  | _, [] => ([], none)
  | i, t :: ts =>
    let call := generate_image decode t i (resps i)
    match call.err with
    | some e => ([call], some e)
    | none =>
      let (rest, err) := imageStageGo decode resps (i + 1) ts
      (call :: rest, err)

/-- The image stage: the loop started at index 0. -/
def imageStage (decode : Str → Nat × Nat) (texts : List Str)
    (resps : Nat → List Str) : List ImgCall × Option PyErr :=
  imageStageGo decode resps 0 texts

/-- The calls the image loop makes when no call fails (all indices, in
order, each with its own response). -/
def imageCallsOf (decode : Str → Nat × Nat) (resps : Nat → List Str) :
    Nat → List Str → List ImgCall
  | _, [] => []
  | i, t :: ts =>
    generate_image decode t i (resps i) :: imageCallsOf decode resps (i + 1) ts

/-- Result of one run of `main()` in `src/main.py`: the console trace,
the durable artifacts actually written (`none` = never written), the
image-generation calls issued, and the uncaught exception if the run
aborted. -/
structure RunOutput where
  msgs : List Msg
  bulletsTxt : Option Str
  bulletsJson : Option (List Str)
  modulesTxt : Option Str
  imgCalls : List ImgCall
  failed : Option PyErr
deriving Repr, DecidableEq

/-- `main()` of `src/main.py` after the two text-service round trips:
`rawBullets`/`rawModules` are the two raw text responses, `imgResps` the
image-service responses per call index.  Messages appear in source
order; an uncaught exception stops the run, leaving later artifacts
unwritten. -/
def runMain (parse : Str → Option JValue) (decode : Str → Nat × Nat) (title : Str)
    (rawBullets rawModules : Str) (imgResps : Nat → List Str) : RunOutput :=
  let msgs0 := [Msg.titleEcho title, .generatingBullets, .tokensBullets]
  match bulletStage parse rawBullets with
  | .error e =>
    { msgs := msgs0, bulletsTxt := none, bulletsJson := none,
      modulesTxt := none, imgCalls := [], failed := some e }
  | .ok (btxt, flats) =>
    let msgs1 := msgs0 ++ [.bulletsSaved, .generatingModule, .tokensModules]
    match moduleStage parse rawModules with
    | .error e =>
      { msgs := msgs1, bulletsTxt := some btxt, bulletsJson := some flats,
        modulesTxt := none, imgCalls := [], failed := some e }
    | .ok textModules =>
      let mtxt := joinSep ['\n'] textModules ++ ['\n']
      let msgs2 := msgs1 ++ [.modulesWritten, .generatingImage]
      let (calls, err) := imageStage decode textModules imgResps
      { msgs := msgs2 ++ (calls.map ImgCall.msgs).flatten ++
          (match err with | none => [Msg.runtime] | some _ => []),
        bulletsTxt := some btxt, bulletsJson := some flats,
        modulesTxt := some mtxt, imgCalls := calls, failed := err }

/-- One part of a Gemini response in `src/banana.py`: inline data with a
mime type, or explanatory text. -/
inductive GPart where
  | inline (mime : Str) (payload : Str)
  | textPart (s : Str)
deriving Repr, DecidableEq

/-- Whether `p` is a prefix of `s` (Python `str.startswith`). -/
def strStartsWith : Str → Str → Bool
  | [], _ => true
  | _ :: _, [] => false
  | p :: ps, b :: bs => if p = b then strStartsWith ps bs else false

/-- `save_inline_image` of `src/banana.py`: decode the inline payload and
persist it resized to exactly 970x600 with Lanczos resampling, named by
the timestamp `ts` under `outdir` (path join modelled as `/`). -/
def save_inline_image (decode : Str → Nat × Nat) (ts : Nat) (outdir : Str)
    (payload : Str) : Str × PImage :=
  (outdir ++ ('/' :: ("gemini_result_").data) ++ natStr ts ++ (".png").data,
   .resized (.raster (decode payload) payload) TARGET_W TARGET_H .lanczos)

/-- The part-collection loop of `generate_image` in `src/banana.py`
(lines 83–89): save every inline image part, echo a note for every text
part, silently skip anything else. -/
def bananaCollect (decode : Str → Nat × Nat) (ts : Nat) (outdir : Str) :
    List GPart → List Msg × List (Str × PImage)
  | [] => ([], [])
  | .inline mime payload :: rest =>
    let (ms, ps) := bananaCollect decode ts outdir rest
    if strStartsWith (("image/").data) mime then
      (ms, save_inline_image decode ts outdir payload :: ps)
    else (ms, ps)
  | .textPart s :: rest =>
    let (ms, ps) := bananaCollect decode ts outdir rest
    (Msg.modelNote s :: ms, ps)

/-- `generate_image` of `src/banana.py` (lines 83–96) after the service
round trip: collect the response parts; if no image part was returned,
echo the red warning and return, otherwise echo the success listing.
Nothing is raised either way. -/
def banana_generate (decode : Str → Nat × Nat) (ts : Nat) (outdir : Str)
    (parts : List GPart) : List Msg × List (Str × PImage) :=
  let (ms, ps) := bananaCollect decode ts outdir parts
  match ps with
  | [] => (ms ++ [Msg.noImagesWarning], [])
  | _ => (ms ++ [Msg.generatedImages (ps.map Prod.fst)], ps)

/-- The persisted image of `src/image.py` (lines 100–104): the decoded
raster converted to RGBA and resized to exactly 970x600 with Lanczos
resampling. -/
def imagepy_final (decode : Str → Nat × Nat) (b64 : Str) : PImage :=
  .resized (.converted (.raster (decode b64) b64) (("RGBA").data))
    TARGET_W TARGET_H .lanczos

/-- Split a string at a separator character (helper for `pathlib`
components). -/
def splitOnChar (c : Char) : Str → List Str
  | [] => [[]]
  | a :: s =>
    match splitOnChar c s with
    | [] => [[a]]
    | g :: gs => if a = c then [] :: g :: gs else (a :: g) :: gs

/-- `pathlib.PurePath.name`: the final non-empty path component. -/
def pathName (p : Str) : Str :=
  ((splitOnChar '/' p).filter (fun s => s ≠ [])).getLastD []

/-- `pathlib.PurePath.suffix`: the final component's extension including
the dot, empty when the last dot is leading or trailing. -/
def pathSuffix (p : Str) : Str :=
  let name := pathName p
  match strRFind name '.' with
  | some i => if 0 < i ∧ i < name.length - 1 then name.drop i else []
  | none => []

/-- `image_path.suffix.lower().replace(".", "")` of
`_encode_to_data_uri`. -/
def extOf (p : Str) : Str :=
  ((pathSuffix p).map Char.toLower).filter (fun c => c ≠ '.')

/-- The extension-to-media-type table of `_encode_to_data_uri`. -/
def mimeOf (ext : Str) : Str :=
  if ext = ("jpg").data ∨ ext = ("jpeg").data then ("image/jpeg").data
  else if ext = ("png").data then ("image/png").data
  else if ext = ("webp").data then ("image/webp").data
  else ("application/octet-stream").data

/-- The standard base64 alphabet. -/
def b64Table : Str :=
  ("ABCDEFGHIJKLMNOPQRSTUVWXYZabcdefghijklmnopqrstuvwxyz0123456789+/").data

/-- Character of a 6-bit group. -/
def b64Char (n : Nat) : Char := b64Table.getD n '?'

/-- RFC 4648 base64 encoding of a byte sequence
(`base64.b64encode`). -/
def b64Encode : List Nat → Str
  | [] => []
  | [a] => [b64Char (a / 4), b64Char (a % 4 * 16), '=', '=']
  | [a, b] => [b64Char (a / 4), b64Char (a % 4 * 16 + b / 16),
               b64Char (b % 16 * 4), '=']
  | a :: b :: c :: rest =>
    [b64Char (a / 4), b64Char (a % 4 * 16 + b / 16),
     b64Char (b % 16 * 4 + c / 64), b64Char (c % 64)] ++ b64Encode rest

/-- `_encode_to_data_uri` of `src/main.py`/`src/bullets.py`: media type
from the file extension, whole-file read (`fs` is the file system:
`none` = path does not exist, raising `FileNotFoundError` before any
content is produced), base64 payload, `data:` URI assembly. -/
def encode_to_data_uri (fs : Str → Option (List Nat)) (p : Str) : Except PyErr Str :=
  match fs p with
  | none => .error .fileNotFound
  | some bytes =>
    .ok (("data:").data ++ mimeOf (extOf p) ++ (";base64,").data ++ b64Encode bytes)

/-! Concrete fixtures used by witnesses and counterexamples. -/

/-- A `json.loads` model that accepts exactly one two-character object
text. -/
def parseW : Str → Option JValue := fun s =>
  if s = ['\x7b', '\x7d'] then some (.obj []) else none

/-- A response with prose around one JSON object. -/
def textW : Str := ['o', 'k', ' ', '\x7b', '\x7d', '!']

/-- A `json.loads` model on which every parse fails (any response that
is not valid JSON and has no brace-delimited JSON inside). -/
def parseNone : Str → Option JValue := fun _ => none

/-- A `json.loads` model that accepts exactly the canonical empty
bullets/modules objects. -/
def cleanParse : Str → Option JValue := fun s =>
  if s = ("\x7b\"bullets\": []\x7d").data then
    some (.obj [(("bullets").data, .arr [])])
  else if s = ("\x7b\"modules\": []\x7d").data then
    some (.obj [(("modules").data, .arr [])])
  else none

/-- The canonical empty-bullets response text. -/
def cleanRawB : Str := ("\x7b\"bullets\": []\x7d").data

/-- The canonical empty-modules response text. -/
def cleanRawM : Str := ("\x7b\"modules\": []\x7d").data

/-- A decoder fixture: every payload decodes at the native generation
size. -/
def decode0 : Str → Nat × Nat := fun _ => (1536, 1024)

/-- An image service fixture returning no image for any call. -/
def respsEmpty : Nat → List Str := fun _ => []

/-- A `json.loads` model that accepts exactly the JSON text `[]`
(valid JSON containing no braces). -/
def parseBracketList : Str → Option JValue := fun s =>
  if s = ("[]").data then some (.arr []) else none

/-- Fields of a minimal complete module record. -/
def moduleWFields : List (Str × JValue) :=
  [(("type").data, .str ("Brand Story").data),
   (("title").data, .str ("Why We Build").data),
   (("visual_concept").data, .str ("Product centre-left.").data),
   (("headline").data, .str ("Grow Together").data),
   (("subtext").data, .str ("Calm, premium, modern.").data)]

/-- A minimal complete module record. -/
def moduleW : JValue := .obj moduleWFields

/-- A `json.loads` model returning two complete modules for the module
response `MM`. -/
def parseTwoModules : Str → Option JValue := fun s =>
  if s = ("MM").data then
    some (.obj [(("modules").data, .arr [moduleW, moduleW])])
  else none

/-- A `json.loads` model returning one complete module for the module
response `M1`. -/
def parseOneModule : Str → Option JValue := fun s =>
  if s = ("M1").data then
    some (.obj [(("modules").data, .arr [moduleW])])
  else none

/-- An image service fixture returning one payload for every call. -/
def respsOne : Nat → List Str := fun _ => [("payload").data]

/-- A `json.loads` model returning one module record with no fields for
the module response `MB`. -/
def parseBadModule : Str → Option JValue := fun s =>
  if s = ("MB").data then
    some (.obj [(("modules").data, .arr [.obj []])])
  else none

/-- The stringified blocks of the `M1` module response. -/
def textsM1 : List Str :=
  (moduleStage parseOneModule (("M1").data)).toOption.getD []

/-- The stringified blocks of the `MM` module response. -/
def textsMM : List Str :=
  (moduleStage parseTwoModules (("MM").data)).toOption.getD []

/-- Whether each of `x`'s four components occurs verbatim in the flat
block `flat` and in the newline-joined text rendering of `txt`. -/
def tupleShown (t : Str × Str × Str × Str) (flat : Str) (txt : List Str) : Prop :=
  (t.1 <:+: flat) ∧ (t.2.1 <:+: flat) ∧ (t.2.2.1 <:+: flat) ∧ (t.2.2.2 <:+: flat) ∧
  (t.1 <:+: joinSep ['\n'] txt) ∧ (t.2.1 <:+: joinSep ['\n'] txt) ∧
  (t.2.2.1 <:+: joinSep ['\n'] txt) ∧ (t.2.2.2 <:+: joinSep ['\n'] txt)

/-- The empty bullet-field tuple. -/
def emptyTuple : Str × Str × Str × Str := ([], [], [], [])

/-- The flat blocks of three field-less bullet items. -/
def flatsW : List Str :=
  [mkFlatBlock emptyTuple, mkFlatBlock emptyTuple, mkFlatBlock emptyTuple]

/-- The text lines of three field-less bullet items. -/
def linesW : List Str :=
  (mkTxtLines 1 emptyTuple ++ [[]]) ++
    ((mkTxtLines 2 emptyTuple ++ [[]]) ++ mkTxtLines 3 emptyTuple)

/-- A file-system fixture containing exactly one three-byte file. -/
def fs0 : Str → Option (List Nat) := fun q =>
  if q = ("logo.PNG").data then some [1, 2, 3] else none

end Saharan

namespace Saharan

/-! Theorems. -/

theorem padBulletsGo_eq_append :
    ∀ (fuel : Nat) (bs : List JValue), 3 - bs.length ≤ fuel →
      padBulletsGo fuel bs = bs ++ List.replicate (3 - bs.length) blank_item := by
  intro fuel
  induction fuel with
  | zero =>
    intro bs h
    have h0 : 3 - bs.length = 0 := by omega
    simp [padBulletsGo, h0]
  | succ k ih =>
    intro bs h
    by_cases hlt : bs.length < 3
    · rw [padBulletsGo]
      simp only [hlt, if_pos]
      rw [ih (bs ++ [blank_item]) (by simp; omega)]
      have hlen : 3 - (bs ++ [blank_item]).length = 3 - bs.length - 1 := by
        simp; omega
      rw [hlen]
      have hrep : 3 - bs.length = (3 - bs.length - 1) + 1 := by omega
      rw [hrep, List.replicate_succ]
      simp
    · rw [padBulletsGo]
      simp only [hlt, if_neg, if_false]
      have h0 : 3 - bs.length = 0 := by omega
      simp [h0]

theorem padBullets_eq_append (bs : List JValue) :
    padBullets bs = bs ++ List.replicate (3 - bs.length) blank_item :=
  padBulletsGo_eq_append 3 bs (by omega)

/-- C1: for every response that parses directly, the structured-response
parser returns the parsed value unchanged; for every response whose
direct parse fails but whose first opening brace lies strictly before its
last closing brace, the parser returns the result of parsing the
inclusive substring between them. -/
theorem get_llm_json_response_spec (parse : Str → Option JValue) (text : Str) :
    (∀ v, parse text = some v → get_llm_json_response parse text = some v) ∧
    (∀ l r, parse text = none →
      strFind text '{' = some l → strRFind text '}' = some r → l < r →
      get_llm_json_response parse text = parse ((text.drop l).take (r + 1 - l))) := by
  constructor
  · intro v hv
    simp [get_llm_json_response, hv]
  · intro l r hnone hl hr hlr
    simp [get_llm_json_response, hnone, hl, hr, hlr]

theorem get_llm_json_response_spec_witness :
    get_llm_json_response parseW ['\x7b', '\x7d'] = some (.obj []) ∧
    get_llm_json_response parseW textW = parseW ((textW.drop 3).take (4 + 1 - 3)) := by
  refine ⟨(get_llm_json_response_spec parseW _).1 (.obj []) (by rfl), ?_⟩
  exact (get_llm_json_response_spec parseW textW).2 3 4 (by rfl) (by decide)
    (by decide) (by decide)

/-- C2: normalization of a parsed bullet list with fewer than 3 items
yields exactly 3 items — the original list as a prefix, in order, with
the canonical placeholder appended for the remainder; a list with more
than 3 items is truncated to exactly its first 3. -/
theorem normalizeBullets_spec (bs : List JValue) :
    (bs.length < 3 →
      normalizeBullets bs = bs ++ List.replicate (3 - bs.length) blank_item ∧
      (normalizeBullets bs).length = 3) ∧
    (bs.length > 3 →
      normalizeBullets bs = bs.take 3 ∧ (normalizeBullets bs).length = 3) := by
  constructor
  · intro hlt
    have hpad := padBullets_eq_append bs
    unfold normalizeBullets
    rw [hpad]
    constructor
    · rw [List.take_of_length_le (by simp; omega)]
    · simp; omega
  · intro hgt
    have hpad := padBullets_eq_append bs
    unfold normalizeBullets
    rw [hpad]
    have h0 : 3 - bs.length = 0 := by omega
    rw [h0]
    simp
    omega

theorem exceptOk_exists {α : Type} {e : Except PyErr α} (h : exceptOk e = true) :
    ∃ a, e = .ok a := by
  cases e with
  | ok a => exact ⟨a, rfl⟩
  | error _ => simp [exceptOk] at h

theorem mem_of_mem_pyStrip {c : Char} {s : Str} (h : c ∈ pyStrip s) : c ∈ s := by
  unfold pyStrip at h
  rw [List.mem_reverse] at h
  have h2 := ((s.dropWhile pyIsSpace).reverse.dropWhile_sublist pyIsSpace).subset h
  rw [List.mem_reverse] at h2
  exact (s.dropWhile_sublist pyIsSpace).subset h2

theorem strFind_eq_none {s : Str} {c : Char} (h : c ∉ s) : strFind s c = none := by
  induction s with
  | nil => rfl
  | cons a s ih =>
    simp only [List.mem_cons, not_or] at h
    simp [strFind, Ne.symm h.1, ih h.2]

/-- C3 (amended): when both the direct parse and the brace-extraction
fallback fail for the bullet response and for the module response, each
stage substitutes an empty collection and the pipeline continues to the
next stage and completes — but no warning is emitted: the run is
indistinguishable from one whose responses parsed cleanly to the same
empty collections. -/
theorem fallback_substitutes_empty_and_continues
    (parse : Str → Option JValue) (decode : Str → Nat × Nat)
    (title rawB rawM : Str) (resps : Nat → List Str)
    (hB : get_llm_json_response parse rawB = none)
    (hM : get_llm_json_response parse (pyStrip rawM) = none) :
    runMain parse decode title rawB rawM resps =
      runMain cleanParse decode title cleanRawB cleanRawM resps ∧
    (runMain parse decode title rawB rawM resps).failed = none ∧
    (runMain parse decode title rawB rawM resps).modulesTxt = some ['\n'] ∧
    ∀ m ∈ (runMain parse decode title rawB rawM resps).msgs, isWarningMsg m = false := by
  have hb : bulletStage parse rawB = bulletStage cleanParse cleanRawB := by
    unfold bulletStage
    rw [hB]
    rfl
  have hm : moduleStage parse rawM = moduleStage cleanParse cleanRawM := by
    unfold moduleStage
    dsimp only
    rw [hM]
    rfl
  have hrun : runMain parse decode title rawB rawM resps =
      runMain cleanParse decode title cleanRawB cleanRawM resps := by
    unfold runMain
    rw [hb, hm]
  refine ⟨hrun, ?_, ?_, ?_⟩
  · rw [hrun]; rfl
  · rw [hrun]; rfl
  · rw [hrun]
    intro m hm2
    have hmsgs : (runMain cleanParse decode title cleanRawB cleanRawM resps).msgs =
        [Msg.titleEcho title, .generatingBullets, .tokensBullets, .bulletsSaved,
         .generatingModule, .tokensModules, .modulesWritten, .generatingImage,
         .runtime] := rfl
    rw [hmsgs] at hm2
    simp only [List.mem_cons] at hm2
    rcases hm2 with rfl | rfl | rfl | rfl | rfl | rfl | rfl | rfl | rfl | h
    · rfl
    · rfl
    · rfl
    · rfl
    · rfl
    · rfl
    · rfl
    · rfl
    · rfl
    · exact absurd h (List.not_mem_nil m)

theorem fallback_substitutes_empty_and_continues_witness :
    get_llm_json_response parseNone (("junk").data) = none ∧
    (runMain parseNone decode0 (("T").data) (("junk").data) (("nope").data)
        respsEmpty).modulesTxt = some ['\n'] :=
  ⟨rfl, (fallback_substitutes_empty_and_continues parseNone decode0 (("T").data)
    (("junk").data) (("nope").data) respsEmpty rfl rfl).2.2.1⟩

/-- C3 (counterexample to the claim as stated): a run in which both
parses fail for both stages completes with the fallback content, yet its
console trace contains no warning of any kind — the caller is not warned
that fallback content was used. -/
theorem fallback_no_warning_counterexample :
    (runMain parseNone decode0 (("T").data) (("junk").data) (("nope").data)
        respsEmpty).failed = none ∧
    ((runMain parseNone decode0 (("T").data) (("junk").data) (("nope").data)
        respsEmpty).msgs.all (fun m => !isWarningMsg m)) = true :=
  ⟨rfl, rfl⟩

/-- C6 (amended): for every module-stage response on which the direct
parse fails and which contains no opening brace, the resulting module
set is empty, zero image-generation calls are issued, `modules.txt` is
written containing only a single newline character, and the run
completes — without emitting any warning. -/
theorem noBrace_moduleStage_spec
    (parse : Str → Option JValue) (decode : Str → Nat × Nat)
    (title rawB rawM : Str) (resps : Nat → List Str)
    (hOk : exceptOk (bulletStage parse rawB) = true)
    (hparse : parse (pyStrip rawM) = none)
    (hbrace : '{' ∉ rawM) :
    (runMain parse decode title rawB rawM resps).modulesTxt = some ['\n'] ∧
    (runMain parse decode title rawB rawM resps).imgCalls = [] ∧
    (runMain parse decode title rawB rawM resps).failed = none ∧
    Msg.runtime ∈ (runMain parse decode title rawB rawM resps).msgs ∧
    ∀ m ∈ (runMain parse decode title rawB rawM resps).msgs, isWarningMsg m = false := by
  obtain ⟨p, hb⟩ := exceptOk_exists hOk
  obtain ⟨bt, fl⟩ := p
  have hget : get_llm_json_response parse (pyStrip rawM) = none := by
    unfold get_llm_json_response
    rw [hparse]
    have hf : strFind (pyStrip rawM) '{' = none :=
      strFind_eq_none (fun hc => hbrace (mem_of_mem_pyStrip hc))
    rw [hf]
  have hm : moduleStage parse rawM = .ok [] := by
    unfold moduleStage
    dsimp only
    rw [hget]
    rfl
  have hout : runMain parse decode title rawB rawM resps =
      { msgs := [Msg.titleEcho title, .generatingBullets, .tokensBullets,
          .bulletsSaved, .generatingModule, .tokensModules, .modulesWritten,
          .generatingImage, .runtime],
        bulletsTxt := some bt, bulletsJson := some fl,
        modulesTxt := some ['\n'], imgCalls := [], failed := none } := by
    unfold runMain
    rw [hb, hm]
    rfl
  rw [hout]
  refine ⟨rfl, rfl, rfl, by simp, ?_⟩
  intro m hm2
  simp only [List.mem_cons] at hm2
  rcases hm2 with rfl | rfl | rfl | rfl | rfl | rfl | rfl | rfl | rfl | h
  · rfl
  · rfl
  · rfl
  · rfl
  · rfl
  · rfl
  · rfl
  · rfl
  · rfl
  · exact absurd h (List.not_mem_nil m)

theorem noBrace_moduleStage_spec_witness :
    exceptOk (bulletStage parseNone (("junk").data)) = true ∧
    (runMain parseNone decode0 (("T").data) (("junk").data) (("plain text").data)
        respsEmpty).imgCalls = [] :=
  ⟨rfl, (noBrace_moduleStage_spec parseNone decode0 (("T").data) (("junk").data)
      (("plain text").data) respsEmpty rfl rfl (by decide)).2.1⟩

/-- C6 (counterexample to the claim as stated): the response `[]`
contains no JSON braces at all, yet the run aborts with an uncaught
`AttributeError` (its direct parse yields a list, and `.get` is applied
outside the try/except) before `modules.txt` is written; and even for a
brace-free prose response the written `modules.txt` contains a newline
character rather than being empty, and no warning is emitted. -/
theorem noBrace_counterexample :
    (runMain parseBracketList decode0 (("T").data) (("junk").data) (("[]").data)
        respsEmpty).failed = some PyErr.attributeError ∧
    (runMain parseBracketList decode0 (("T").data) (("junk").data) (("[]").data)
        respsEmpty).modulesTxt = none ∧
    (runMain parseNone decode0 (("T").data) (("junk").data) (("plain text").data)
        respsEmpty).modulesTxt = some ['\n'] ∧
    ((runMain parseNone decode0 (("T").data) (("junk").data) (("plain text").data)
        respsEmpty).msgs.all (fun m => !isWarningMsg m)) = true :=
  ⟨rfl, rfl, rfl, rfl⟩

theorem generate_image_idx (decode : Str → Nat × Nat) (t : Str) (start : Nat)
    (r : List Str) : (generate_image decode t start r).idx = start := by
  cases r <;> rfl

theorem imageStageGo_stops (decode : Str → Nat × Nat) (resps : Nat → List Str) :
    ∀ (i : Nat) (texts : List Str) (start : Nat),
      (∀ j, j < i → resps (start + j) ≠ []) →
      resps (start + i) = [] →
      i < texts.length →
      ∃ calls, imageStageGo decode resps start texts = (calls, some PyErr.indexError) ∧
        calls.length = i + 1 ∧
        (∀ c ∈ calls, c.idx ≤ start + i) ∧
        (calls.getLast?).map ImgCall.saved = some none := by
  intro i
  induction i with
  | zero =>
    intro texts start _ hempty hlen
    cases texts with
    | nil => simp at hlen
    | cons t ts =>
      have h0 : resps start = [] := by simpa using hempty
      have hcall : generate_image decode t start (resps start) =
          { idx := start, instruction := t, prompt := build_image_prompt t,
            size := (GEN_W, GEN_H), msgs := [.generatingBaseImage start],
            saved := none, err := some .indexError } := by
        rw [h0]; rfl
      refine ⟨[generate_image decode t start (resps start)], ?_, rfl, ?_, ?_⟩
      · simp only [imageStageGo]
        rw [hcall]
      · intro c hc
        rw [List.mem_singleton] at hc
        subst hc
        rw [hcall]
        simp
      · rw [hcall]
        rfl
  | succ k ih =>
    intro texts start hpre hempty hlen
    cases texts with
    | nil => simp at hlen
    | cons t ts =>
      have h0 : resps start ≠ [] := by
        have := hpre 0 (Nat.succ_pos k)
        simpa using this
      obtain ⟨b, brest, hr⟩ : ∃ b brest, resps start = b :: brest := by
        cases hres : resps start with
        | nil => exact absurd hres h0
        | cons b brest => exact ⟨b, brest, rfl⟩
      have hpre2 : ∀ j, j < k → resps (start + 1 + j) ≠ [] := by
        intro j hj
        have h2 := hpre (j + 1) (by omega)
        have h3 : start + (j + 1) = start + 1 + j := by omega
        rwa [h3] at h2
      have hempty2 : resps (start + 1 + k) = [] := by
        have h3 : start + (k + 1) = start + 1 + k := by omega
        rwa [h3] at hempty
      have hlen2 : k < ts.length := by
        simp at hlen
        omega
      obtain ⟨calls, hgo, hlenc, hidx, hlast⟩ := ih ts (start + 1) hpre2 hempty2 hlen2
      have herr : (generate_image decode t start (resps start)).err = none := by
        rw [hr]; rfl
      refine ⟨generate_image decode t start (resps start) :: calls, ?_, ?_, ?_, ?_⟩
      · simp only [imageStageGo]
        rw [herr, hgo]
      · simp [hlenc]
      · intro c hc
        rcases List.mem_cons.mp hc with rfl | hc2
        · rw [generate_image_idx]
          omega
        · have := hidx c hc2
          omega
      · cases calls with
        | nil => simp at hlenc
        | cons c2 cs =>
          rw [List.getLast?_cons_cons]
          exact hlast

/-- C7 (amended): in the pipeline (`src/main.py`), an image-generation
call that returns zero image parts raises an uncaught `IndexError` which
aborts the run: no image is persisted for that index and no later index
is attempted.  Only the standalone Gemini tool (`src/banana.py`) reports
a zero-image result with its warning and returns normally. -/
theorem zero_image_parts_spec :
    (∀ (parse : Str → Option JValue) (decode : Str → Nat × Nat)
        (title rawB rawM : Str) (resps : Nat → List Str) (texts : List Str) (i : Nat),
      exceptOk (bulletStage parse rawB) = true →
      moduleStage parse rawM = .ok texts →
      (∀ j, j < i → resps j ≠ []) →
      resps i = [] →
      i < texts.length →
      (runMain parse decode title rawB rawM resps).failed = some PyErr.indexError ∧
      (runMain parse decode title rawB rawM resps).imgCalls.length = i + 1 ∧
      ((runMain parse decode title rawB rawM resps).imgCalls.getLast?).map
        ImgCall.saved = some none) ∧
    (∀ (decode : Str → Nat × Nat) (ts : Nat) (outdir : Str) (parts : List GPart),
      (bananaCollect decode ts outdir parts).2 = [] →
      banana_generate decode ts outdir parts =
        ((bananaCollect decode ts outdir parts).1 ++ [Msg.noImagesWarning], [])) := by
  constructor
  · intro parse decode title rawB rawM resps texts i hOk hmod hpre hempty hlen
    obtain ⟨p, hb⟩ := exceptOk_exists hOk
    obtain ⟨bt, fl⟩ := p
    have hpre0 : ∀ j, j < i → resps (0 + j) ≠ [] := by
      intro j hj
      rw [Nat.zero_add]
      exact hpre j hj
    have hempty0 : resps (0 + i) = [] := by
      rw [Nat.zero_add]
      exact hempty
    obtain ⟨calls, hgo, hlenc, _, hlast⟩ :=
      imageStageGo_stops decode resps i texts 0 hpre0 hempty0 hlen
    have hstage : imageStage decode texts resps = (calls, some PyErr.indexError) := by
      unfold imageStage
      exact hgo
    have hout : runMain parse decode title rawB rawM resps =
        { msgs := [Msg.titleEcho title, .generatingBullets, .tokensBullets,
            .bulletsSaved, .generatingModule, .tokensModules, .modulesWritten,
            .generatingImage] ++ (calls.map ImgCall.msgs).flatten,
          bulletsTxt := some bt, bulletsJson := some fl,
          modulesTxt := some (joinSep ['\n'] texts ++ ['\n']), imgCalls := calls,
          failed := some PyErr.indexError } := by
      unfold runMain
      rw [hb, hmod]
      dsimp only
      rw [hstage]
      simp
    rw [hout]
    exact ⟨rfl, hlenc, hlast⟩
  · intro decode ts outdir parts hempty
    unfold banana_generate
    rcases hc : bananaCollect decode ts outdir parts with ⟨ms, ps⟩
    rw [hc] at hempty
    simp only at hempty
    subst hempty
    rfl

theorem zero_image_parts_spec_witness :
    (runMain parseTwoModules decode0 (("T").data) (("junk").data) (("MM").data)
        respsEmpty).failed = some PyErr.indexError ∧
    banana_generate decode0 5 (("out").data) [GPart.textPart (("no").data)] =
      ((bananaCollect decode0 5 (("out").data) [GPart.textPart (("no").data)]).1 ++
        [Msg.noImagesWarning], []) :=
  ⟨(zero_image_parts_spec.1 parseTwoModules decode0 (("T").data) (("junk").data)
      (("MM").data) respsEmpty textsMM 0 rfl rfl
      (fun j hj => absurd hj (Nat.not_lt_zero j)) rfl (by decide)).1,
   zero_image_parts_spec.2 decode0 5 (("out").data)
      [GPart.textPart (("no").data)] rfl⟩

/-- C7 (counterexample to the claim as stated): a run with two module
blocks whose first image call returns zero image parts aborts with an
uncaught `IndexError`: only index 0 is attempted, nothing is saved for
it, no warning is emitted, and the attempt for index 1 never proceeds. -/
theorem zero_image_parts_counterexample :
    (runMain parseTwoModules decode0 (("T").data) (("junk").data) (("MM").data)
        respsEmpty).failed = some PyErr.indexError ∧
    (runMain parseTwoModules decode0 (("T").data) (("junk").data) (("MM").data)
        respsEmpty).imgCalls.map ImgCall.idx = [0] ∧
    (runMain parseTwoModules decode0 (("T").data) (("junk").data) (("MM").data)
        respsEmpty).imgCalls.map ImgCall.saved = [none] ∧
    ((runMain parseTwoModules decode0 (("T").data) (("junk").data) (("MM").data)
        respsEmpty).msgs.all (fun m => !isWarningMsg m)) = true :=
  ⟨rfl, rfl, rfl, rfl⟩

theorem imageStageGo_all_ok (decode : Str → Nat × Nat) (resps : Nat → List Str) :
    ∀ (texts : List Str) (start : Nat),
      (∀ j, j < texts.length → resps (start + j) ≠ []) →
      imageStageGo decode resps start texts =
        (imageCallsOf decode resps start texts, none) := by
  intro texts
  induction texts with
  | nil => intro start _; rfl
  | cons t ts ih =>
    intro start h
    have h0 : resps start ≠ [] := by
      have := h 0 (by simp)
      simpa using this
    obtain ⟨b, brest, hr⟩ : ∃ b brest, resps start = b :: brest := by
      cases hres : resps start with
      | nil => exact absurd hres h0
      | cons b brest => exact ⟨b, brest, rfl⟩
    have herr : (generate_image decode t start (resps start)).err = none := by
      rw [hr]; rfl
    have hts : ∀ j, j < ts.length → resps (start + 1 + j) ≠ [] := by
      intro j hj
      have h2 := h (j + 1) (by simp; omega)
      have h3 : start + (j + 1) = start + 1 + j := by omega
      rwa [h3] at h2
    simp only [imageStageGo]
    rw [herr, ih (start + 1) hts]
    simp only [imageCallsOf]

theorem imageCallsOf_getElem (decode : Str → Nat × Nat) (resps : Nat → List Str) :
    ∀ (texts : List Str) (start i : Nat), i < texts.length →
      (imageCallsOf decode resps start texts)[i]? =
        some (generate_image decode (texts.getD i [])
          (start + i) (resps (start + i))) := by
  intro texts
  induction texts with
  | nil => intro start i hi; simp at hi
  | cons t ts ih =>
    intro start i hi
    cases i with
    | zero => simp [imageCallsOf]
    | succ k =>
      have hk : k < ts.length := by simp at hi; omega
      have h3 : start + (k + 1) = start + 1 + k := by omega
      simp only [imageCallsOf, List.getElem?_cons_succ, List.getD_cons_succ, h3]
      exact ih (start + 1) k hk

/-- C9 (amended): for every index `i` of the parsed module set, the
image-generation call at position `i` uses exactly the stringified module
block at position `i` as its instruction, persists its output as
`image_i.png` with the zero-based index, and its printed progress
messages display that same zero-based index (one-based numbering appears
only in the bullet text rendering). -/
theorem image_ordering_spec
    (parse : Str → Option JValue) (decode : Str → Nat × Nat)
    (title rawB rawM : Str) (resps : Nat → List Str) (texts : List Str) (i : Nat)
    (hOk : exceptOk (bulletStage parse rawB) = true)
    (hmod : moduleStage parse rawM = .ok texts)
    (hresp : ∀ j, j < texts.length → resps j ≠ [])
    (hi : i < texts.length) :
    ∃ img,
      ((runMain parse decode title rawB rawM resps).imgCalls)[i]? = some
        { idx := i, instruction := texts.getD i [],
          prompt := build_image_prompt (texts.getD i []),
          size := (GEN_W, GEN_H),
          msgs := [Msg.generatingBaseImage i, Msg.savedFinalImage i],
          saved := some ((("image_").data ++ natStr i ++ (".png").data), img),
          err := none } := by
  obtain ⟨p, hb⟩ := exceptOk_exists hOk
  obtain ⟨bt, fl⟩ := p
  have hresp0 : ∀ j, j < texts.length → resps (0 + j) ≠ [] := by
    intro j hj
    rw [Nat.zero_add]
    exact hresp j hj
  have hstage : imageStage decode texts resps =
      (imageCallsOf decode resps 0 texts, none) := by
    unfold imageStage
    exact imageStageGo_all_ok decode resps texts 0 hresp0
  have hcalls : (runMain parse decode title rawB rawM resps).imgCalls =
      imageCallsOf decode resps 0 texts := by
    unfold runMain
    rw [hb, hmod]
    dsimp only
    rw [hstage]
  obtain ⟨b, brest, hrb⟩ : ∃ b brest, resps i = b :: brest := by
    cases hres : resps i with
    | nil => exact absurd hres (hresp i hi)
    | cons b brest => exact ⟨b, brest, rfl⟩
  refine ⟨.resized (.raster (decode b) b) TARGET_W TARGET_H .lanczos, ?_⟩
  rw [hcalls, imageCallsOf_getElem decode resps texts 0 i hi]
  rw [Nat.zero_add, hrb]
  rfl

theorem image_ordering_spec_witness :
    ∃ img,
      ((runMain parseOneModule decode0 (("T").data) (("junk").data) (("M1").data)
          respsOne).imgCalls)[0]? = some
        { idx := 0, instruction := textsM1.getD 0 [],
          prompt := build_image_prompt (textsM1.getD 0 []),
          size := (GEN_W, GEN_H),
          msgs := [Msg.generatingBaseImage 0, Msg.savedFinalImage 0],
          saved := some ((("image_").data ++ natStr 0 ++ (".png").data), img),
          err := none } :=
  image_ordering_spec parseOneModule decode0 (("T").data) (("junk").data)
    (("M1").data) respsOne textsM1 0 rfl rfl
    (fun j _ => by simp [respsOne]) (by decide)

/-- C9 (counterexample to the claim as stated): with one parsed module,
the progress message printed for the first image displays the zero-based
index 0, not the one-based 1 — display numbering of the image stage is
zero-based. -/
theorem display_numbering_counterexample :
    Msg.generatingBaseImage 0 ∈ (runMain parseOneModule decode0 (("T").data)
        (("junk").data) (("M1").data) respsOne).msgs ∧
    Msg.generatingBaseImage 1 ∉ (runMain parseOneModule decode0 (("T").data)
        (("junk").data) (("M1").data) respsOne).msgs ∧
    (runMain parseOneModule decode0 (("T").data) (("junk").data) (("M1").data)
        respsOne).imgCalls.map ImgCall.idx = [0] := by
  refine ⟨by decide, by decide, rfl⟩

theorem stringifyAll_error :
    ∀ (pre : List JValue) (m : JValue) (post : List JValue) (e : PyErr),
      (∀ x ∈ pre, ∃ s, stringify_module x = .ok s) →
      stringify_module m = .error e →
      stringifyAll (pre ++ m :: post) = .error e := by
  intro pre
  induction pre with
  | nil =>
    intro m post e _ he
    simp only [List.nil_append, stringifyAll]
    rw [he]
    rfl
  | cons a pre ih =>
    intro m post e h he
    obtain ⟨s, hs⟩ := h a (List.mem_cons_self a pre)
    have h2 : ∀ x ∈ pre, ∃ s, stringify_module x = .ok s :=
      fun x hx => h x (List.mem_cons_of_mem a hx)
    show stringifyAll (a :: (pre ++ m :: post)) = .error e
    simp only [stringifyAll]
    rw [hs, ih m post e h2 he]
    rfl

/-- C10: module stringification is total exactly on records with all
five fields: a parsed module record missing any of the five keys makes
`stringify_module` raise a `KeyError` that aborts the run before
`modules.txt` is written and before any image for any index is
generated — unlike the bullet rendering, which substitutes the empty
string for every missing field. -/
theorem stringify_module_strictness :
    (∀ fields : List (Str × JValue),
      (∀ k ∈ moduleKeys, (jlookup fields k).isSome = true) →
      ∃ s, stringify_module (.obj fields) = .ok s) ∧
    (∀ (fields : List (Str × JValue)) (k : Str), k ∈ moduleKeys →
      jlookup fields k = none →
      ∃ k2 ∈ moduleKeys, stringify_module (.obj fields) = .error (.keyError k2)) ∧
    (∀ (parse : Str → Option JValue) (decode : Str → Nat × Nat)
        (title rawB rawM : Str) (resps : Nat → List Str)
        (pre post : List JValue) (fields : List (Str × JValue)) (k : Str),
      exceptOk (bulletStage parse rawB) = true →
      get_llm_json_response parse (pyStrip rawM) =
        some (.obj [(("modules").data, .arr (pre ++ .obj fields :: post))]) →
      (∀ x ∈ pre, ∃ s, stringify_module x = .ok s) →
      k ∈ moduleKeys → jlookup fields k = none →
      (runMain parse decode title rawB rawM resps).modulesTxt = none ∧
      (runMain parse decode title rawB rawM resps).imgCalls = [] ∧
      ∃ k2, (runMain parse decode title rawB rawM resps).failed =
        some (.keyError k2)) ∧
    (∀ fields : List (Str × JValue),
      (∀ k ∈ bulletKeys, jlookup fields k = none) →
      bulletFields (.obj fields) = .ok ([], [], [], [])) := by
  have partB : ∀ (fields : List (Str × JValue)) (k : Str), k ∈ moduleKeys →
      jlookup fields k = none →
      ∃ k2 ∈ moduleKeys, stringify_module (.obj fields) = .error (.keyError k2) := by
    intro fields k hk hnone
    cases h1 : jlookup fields (("type").data) with
    | none =>
      refine ⟨(("type").data), by simp [moduleKeys], ?_⟩
      unfold stringify_module
      rw [show pySubscript (JValue.obj fields) (("type").data) =
        .error (.keyError (("type").data)) from by simp [pySubscript, h1]]
      rfl
    | some v1 =>
      cases h2 : jlookup fields (("title").data) with
      | none =>
        refine ⟨(("title").data), by simp [moduleKeys], ?_⟩
        unfold stringify_module
        rw [show pySubscript (JValue.obj fields) (("type").data) = .ok v1 from by
              simp [pySubscript, h1],
            show pySubscript (JValue.obj fields) (("title").data) =
              .error (.keyError (("title").data)) from by simp [pySubscript, h2]]
        rfl
      | some v2 =>
        cases h3 : jlookup fields (("visual_concept").data) with
        | none =>
          refine ⟨(("visual_concept").data), by simp [moduleKeys], ?_⟩
          unfold stringify_module
          rw [show pySubscript (JValue.obj fields) (("type").data) = .ok v1 from by
                simp [pySubscript, h1],
              show pySubscript (JValue.obj fields) (("title").data) = .ok v2 from by
                simp [pySubscript, h2],
              show pySubscript (JValue.obj fields) (("visual_concept").data) =
                .error (.keyError (("visual_concept").data)) from by
                simp [pySubscript, h3]]
          rfl
        | some v3 =>
          cases h4 : jlookup fields (("headline").data) with
          | none =>
            refine ⟨(("headline").data), by simp [moduleKeys], ?_⟩
            unfold stringify_module
            rw [show pySubscript (JValue.obj fields) (("type").data) = .ok v1 from by
                  simp [pySubscript, h1],
                show pySubscript (JValue.obj fields) (("title").data) = .ok v2 from by
                  simp [pySubscript, h2],
                show pySubscript (JValue.obj fields) (("visual_concept").data) =
                  .ok v3 from by simp [pySubscript, h3],
                show pySubscript (JValue.obj fields) (("headline").data) =
                  .error (.keyError (("headline").data)) from by
                  simp [pySubscript, h4]]
            rfl
          | some v4 =>
            cases h5 : jlookup fields (("subtext").data) with
            | none =>
              refine ⟨(("subtext").data), by simp [moduleKeys], ?_⟩
              unfold stringify_module
              rw [show pySubscript (JValue.obj fields) (("type").data) = .ok v1 from by
                    simp [pySubscript, h1],
                  show pySubscript (JValue.obj fields) (("title").data) = .ok v2 from by
                    simp [pySubscript, h2],
                  show pySubscript (JValue.obj fields) (("visual_concept").data) =
                    .ok v3 from by simp [pySubscript, h3],
                  show pySubscript (JValue.obj fields) (("headline").data) =
                    .ok v4 from by simp [pySubscript, h4],
                  show pySubscript (JValue.obj fields) (("subtext").data) =
                    .error (.keyError (("subtext").data)) from by
                    simp [pySubscript, h5]]
              rfl
            | some v5 =>
              exfalso
              simp only [moduleKeys, List.mem_cons, List.not_mem_nil, or_false] at hk
              rcases hk with rfl | rfl | rfl | rfl | rfl
              · rw [hnone] at h1; exact absurd h1 (by simp)
              · rw [hnone] at h2; exact absurd h2 (by simp)
              · rw [hnone] at h3; exact absurd h3 (by simp)
              · rw [hnone] at h4; exact absurd h4 (by simp)
              · rw [hnone] at h5; exact absurd h5 (by simp)
  refine ⟨?_, partB, ?_, ?_⟩
  · intro fields h
    have h1 := h (("type").data) (by simp [moduleKeys])
    have h2 := h (("title").data) (by simp [moduleKeys])
    have h3 := h (("visual_concept").data) (by simp [moduleKeys])
    have h4 := h (("headline").data) (by simp [moduleKeys])
    have h5 := h (("subtext").data) (by simp [moduleKeys])
    rw [Option.isSome_iff_exists] at h1 h2 h3 h4 h5
    obtain ⟨v1, hv1⟩ := h1
    obtain ⟨v2, hv2⟩ := h2
    obtain ⟨v3, hv3⟩ := h3
    obtain ⟨v4, hv4⟩ := h4
    obtain ⟨v5, hv5⟩ := h5
    refine ⟨pyStr v1 ++ (": ‚Äú").data ++ pyStr v2 ++ ("‚Äù\n\n").data ++
      ("Visual Concept:\n").data ++ pyStr v3 ++ ("\n\n").data ++
      ("Headline:\n‚Äú").data ++ pyStr v4 ++ ("‚Äù\n\n").data ++
      ("Subtext:\n").data ++ pyStr v5, ?_⟩
    unfold stringify_module
    rw [show pySubscript (JValue.obj fields) (("type").data) = .ok v1 from by
          simp [pySubscript, hv1],
        show pySubscript (JValue.obj fields) (("title").data) = .ok v2 from by
          simp [pySubscript, hv2],
        show pySubscript (JValue.obj fields) (("visual_concept").data) = .ok v3 from by
          simp [pySubscript, hv3],
        show pySubscript (JValue.obj fields) (("headline").data) = .ok v4 from by
          simp [pySubscript, hv4],
        show pySubscript (JValue.obj fields) (("subtext").data) = .ok v5 from by
          simp [pySubscript, hv5]]
    rfl
  · intro parse decode title rawB rawM resps pre post fields k hOk hparse hpre hk hnone
    obtain ⟨p, hb⟩ := exceptOk_exists hOk
    obtain ⟨bt, fl⟩ := p
    obtain ⟨k2, _, herr⟩ := partB fields k hk hnone
    have hmod : moduleStage parse rawM = .error (.keyError k2) := by
      unfold moduleStage
      dsimp only
      rw [hparse]
      exact stringifyAll_error pre (.obj fields) post (.keyError k2) hpre herr
    have hout : runMain parse decode title rawB rawM resps =
        { msgs := [Msg.titleEcho title, .generatingBullets, .tokensBullets,
            .bulletsSaved, .generatingModule, .tokensModules],
          bulletsTxt := some bt, bulletsJson := some fl,
          modulesTxt := none, imgCalls := [],
          failed := some (.keyError k2) } := by
      unfold runMain
      rw [hb, hmod]
      rfl
    rw [hout]
    exact ⟨rfl, rfl, k2, rfl⟩
  · intro fields h
    have h1 := h (("heading").data) (by simp [bulletKeys])
    have h2 := h (("customer_benefit").data) (by simp [bulletKeys])
    have h3 := h (("key_feature").data) (by simp [bulletKeys])
    have h4 := h (("proof_or_differentiator").data) (by simp [bulletKeys])
    unfold bulletFields getFieldStripped pyGet
    dsimp only
    rw [h1, h2, h3, h4]
    rfl

theorem stringify_module_strictness_witness :
    (∃ s, stringify_module (.obj moduleWFields) = .ok s) ∧
    (∃ k2 ∈ moduleKeys, stringify_module (.obj []) = .error (.keyError k2)) ∧
    ((runMain parseBadModule decode0 (("T").data) (("junk").data) (("MB").data)
        respsEmpty).modulesTxt = none ∧
      (runMain parseBadModule decode0 (("T").data) (("junk").data) (("MB").data)
        respsEmpty).imgCalls = [] ∧
      ∃ k2, (runMain parseBadModule decode0 (("T").data) (("junk").data)
        (("MB").data) respsEmpty).failed = some (.keyError k2)) ∧
    bulletFields (.obj []) = .ok ([], [], [], []) :=
  ⟨stringify_module_strictness.1 moduleWFields (by decide),
   stringify_module_strictness.2.1 [] (("type").data) (by decide) rfl,
   stringify_module_strictness.2.2.1 parseBadModule decode0 (("T").data)
     (("junk").data) (("MB").data) respsEmpty [] [] [] (("type").data)
     rfl rfl (fun x hx => absurd hx (List.not_mem_nil x)) (by decide) rfl,
   stringify_module_strictness.2.2.2 [] (fun _ _ => rfl)⟩

/-- C5: for every raster returned by an image-generation service,
whatever native resolution the decoder reports for it, the persisted
output image is exactly 970x600 pixels and is produced by a Lanczos
resize of the decoded raster — in the pipeline (`src/main.py`), in the
Gemini tool (`src/banana.py`), and in the standalone tool
(`src/image.py`, after an RGBA conversion). -/
theorem images_target_size_spec :
    (∀ (decode : Str → Nat × Nat) (instruction : Str) (idx : Nat) (b64 : Str)
        (rest : List Str),
      (generate_image decode instruction idx (b64 :: rest)).saved =
        some ((("image_").data ++ natStr idx ++ (".png").data),
          PImage.resized (.raster (decode b64) b64) TARGET_W TARGET_H .lanczos) ∧
      ((generate_image decode instruction idx (b64 :: rest)).saved.map
        (fun q => (q.2.width, q.2.height))) = some (970, 600)) ∧
    (∀ (decode : Str → Nat × Nat) (ts : Nat) (outdir payload : Str),
      (save_inline_image decode ts outdir payload).2 =
        PImage.resized (.raster (decode payload) payload) TARGET_W TARGET_H .lanczos ∧
      (save_inline_image decode ts outdir payload).2.width = 970 ∧
      (save_inline_image decode ts outdir payload).2.height = 600) ∧
    (∀ (decode : Str → Nat × Nat) (b64 : Str),
      imagepy_final decode b64 =
        PImage.resized (.converted (.raster (decode b64) b64) (("RGBA").data))
          TARGET_W TARGET_H .lanczos ∧
      (imagepy_final decode b64).width = 970 ∧
      (imagepy_final decode b64).height = 600) :=
  ⟨fun _ _ _ _ _ => ⟨rfl, rfl⟩,
   fun _ _ _ _ => ⟨rfl, rfl, rfl⟩,
   fun _ _ => ⟨rfl, rfl, rfl⟩⟩

/-- C8: the asset encoder maps the file extension to the media type
(`jpg`/`jpeg` to `image/jpeg`, `png` to `image/png`, `webp` to
`image/webp`, anything else to `application/octet-stream`),
base64-encodes the whole file, and returns
`data:<mime>;base64,<payload>`; on a path that does not exist it fails
with the not-found error, producing no data. -/
theorem encode_to_data_uri_spec (fs : Str → Option (List Nat)) (p : Str) :
    (fs p = none → encode_to_data_uri fs p = .error .fileNotFound) ∧
    (∀ bytes, fs p = some bytes →
      encode_to_data_uri fs p =
        .ok (("data:").data ++ mimeOf (extOf p) ++ (";base64,").data ++
          b64Encode bytes) ∧
      ((extOf p = ("jpg").data ∨ extOf p = ("jpeg").data) →
        encode_to_data_uri fs p =
          .ok (("data:image/jpeg;base64,").data ++ b64Encode bytes)) ∧
      (extOf p = ("png").data →
        encode_to_data_uri fs p =
          .ok (("data:image/png;base64,").data ++ b64Encode bytes)) ∧
      (extOf p = ("webp").data →
        encode_to_data_uri fs p =
          .ok (("data:image/webp;base64,").data ++ b64Encode bytes)) ∧
      (extOf p ≠ ("jpg").data → extOf p ≠ ("jpeg").data →
        extOf p ≠ ("png").data → extOf p ≠ ("webp").data →
        encode_to_data_uri fs p =
          .ok (("data:application/octet-stream;base64,").data ++
            b64Encode bytes))) := by
  constructor
  · intro h
    unfold encode_to_data_uri
    rw [h]
  · intro bytes h
    have hgen : encode_to_data_uri fs p =
        .ok (("data:").data ++ mimeOf (extOf p) ++ (";base64,").data ++
          b64Encode bytes) := by
      unfold encode_to_data_uri
      rw [h]
    refine ⟨hgen, ?_, ?_, ?_, ?_⟩
    · intro hext
      rw [hgen]
      unfold mimeOf
      rw [if_pos hext]
      rfl
    · intro hext
      rw [hgen]
      unfold mimeOf
      rw [if_neg (by rw [hext]; decide), if_pos hext]
      rfl
    · intro hext
      rw [hgen]
      unfold mimeOf
      rw [if_neg (by rw [hext]; decide), if_neg (by rw [hext]; decide),
        if_pos hext]
      rfl
    · intro hn1 hn2 hn3 hn4
      rw [hgen]
      unfold mimeOf
      rw [if_neg (not_or_intro hn1 hn2), if_neg hn3, if_neg hn4]
      rfl

theorem encode_to_data_uri_spec_witness :
    encode_to_data_uri fs0 (("logo.PNG").data) =
      .ok (("data:image/png;base64,").data ++ b64Encode [1, 2, 3]) ∧
    encode_to_data_uri fs0 (("absent.png").data) = .error .fileNotFound :=
  ⟨((encode_to_data_uri_spec fs0 (("logo.PNG").data)).2 [1, 2, 3] rfl).2.2.1
      (by decide),
   (encode_to_data_uri_spec fs0 (("absent.png").data)).1 rfl⟩

theorem renderBulletsGo_cons_ok
    {total idx : Nat} {item : JValue} {rest : List JValue}
    {lines flats : List Str}
    (h : renderBulletsGo total idx (item :: rest) = .ok (lines, flats)) :
    ∃ t lines2 flats2, bulletFields item = .ok t ∧
      renderBulletsGo total (idx + 1) rest = .ok (lines2, flats2) ∧
      lines = (mkTxtLines idx t ++ if idx < total then [[]] else []) ++ lines2 ∧
      flats = mkFlatBlock t :: flats2 := by
  cases ht : bulletFields item with
  | error e =>
    rw [show renderBulletsGo total idx (item :: rest) = Except.error e from by
      simp only [renderBulletsGo]; rw [ht]; rfl] at h
    exact Except.noConfusion h
  | ok t =>
    cases hr : renderBulletsGo total (idx + 1) rest with
    | error e =>
      rw [show renderBulletsGo total idx (item :: rest) = Except.error e from by
        simp only [renderBulletsGo]; rw [ht, hr]; rfl] at h
      exact Except.noConfusion h
    | ok pr =>
      obtain ⟨lines2, flats2⟩ := pr
      rw [show renderBulletsGo total idx (item :: rest) =
          .ok ((mkTxtLines idx t ++ if idx < total then [[]] else []) ++ lines2,
            mkFlatBlock t :: flats2) from by
        simp only [renderBulletsGo]; rw [ht, hr]; rfl] at h
      simp only [Except.ok.injEq, Prod.mk.injEq] at h
      exact ⟨t, lines2, flats2, rfl, rfl, h.1.symm, h.2.symm⟩

theorem tupleShown_mk (idx : Nat) (t : Str × Str × Str × Str) :
    tupleShown t (mkFlatBlock t) (mkTxtLines idx t) := by
  obtain ⟨a, b, c, d⟩ := t
  unfold tupleShown mkFlatBlock mkTxtLines
  dsimp only
  refine ⟨?_, ?_, ?_, ?_, ?_, ?_, ?_, ?_⟩
  · exact ⟨[], ("\n\nCustomer Benefit: ").data ++ b ++ ("\nKey Feature: ").data ++
      c ++ ("\nProof / Differentiator: ").data ++ d, by simp⟩
  · exact ⟨a ++ ("\n\nCustomer Benefit: ").data, ("\nKey Feature: ").data ++
      c ++ ("\nProof / Differentiator: ").data ++ d, by simp⟩
  · exact ⟨a ++ ("\n\nCustomer Benefit: ").data ++ b ++ ("\nKey Feature: ").data,
      ("\nProof / Differentiator: ").data ++ d, by simp⟩
  · exact ⟨a ++ ("\n\nCustomer Benefit: ").data ++ b ++ ("\nKey Feature: ").data ++
      c ++ ("\nProof / Differentiator: ").data, [], by simp⟩
  · exact ⟨natStr idx ++ (". ").data,
      ['\n'] ++ (("Customer Benefit: ").data ++ b) ++ ['\n'] ++
        (("Key Feature: ").data ++ c) ++ ['\n'] ++
        (("Proof / Differentiator: ").data ++ d),
      by simp [joinSep]⟩
  · exact ⟨(natStr idx ++ (". ").data ++ a) ++ ['\n'] ++ ("Customer Benefit: ").data,
      ['\n'] ++ (("Key Feature: ").data ++ c) ++ ['\n'] ++
        (("Proof / Differentiator: ").data ++ d),
      by simp [joinSep]⟩
  · exact ⟨(natStr idx ++ (". ").data ++ a) ++ ['\n'] ++
        (("Customer Benefit: ").data ++ b) ++ ['\n'] ++ ("Key Feature: ").data,
      ['\n'] ++ (("Proof / Differentiator: ").data ++ d),
      by simp [joinSep]⟩
  · exact ⟨(natStr idx ++ (". ").data ++ a) ++ ['\n'] ++
        (("Customer Benefit: ").data ++ b) ++ ['\n'] ++
        (("Key Feature: ").data ++ c) ++ ['\n'] ++
        ("Proof / Differentiator: ").data,
      [], by simp [joinSep]⟩

/-- C4: for every normalized bullet triple whose rendering succeeds, the
flat `bullets.json` string array and the numbered `bullets.txt` lines
describe the same three items in the same order — block `i` of each is
built from the same four stripped field texts of item `i`, and each of
those field texts occurs verbatim in both renderings at position `i`. -/
theorem bullet_renderings_agree
    (bullets : List JValue) (lines flats : List Str)
    (hlen : bullets.length = 3)
    (hok : renderBullets bullets = .ok (lines, flats)) :
    ∃ b0 b1 b2 t0 t1 t2,
      bullets = [b0, b1, b2] ∧
      bulletFields b0 = .ok t0 ∧ bulletFields b1 = .ok t1 ∧
      bulletFields b2 = .ok t2 ∧
      flats = [mkFlatBlock t0, mkFlatBlock t1, mkFlatBlock t2] ∧
      lines = mkTxtLines 1 t0 ++ [[]] ++ mkTxtLines 2 t1 ++ [[]] ++
        mkTxtLines 3 t2 ∧
      tupleShown t0 (mkFlatBlock t0) (mkTxtLines 1 t0) ∧
      tupleShown t1 (mkFlatBlock t1) (mkTxtLines 2 t1) ∧
      tupleShown t2 (mkFlatBlock t2) (mkTxtLines 3 t2) := by
  obtain ⟨b0, b1, b2, rfl⟩ := List.length_eq_three.mp hlen
  unfold renderBullets at hok
  obtain ⟨t0, l1, f1, h0, hok1, hl0, hf0⟩ := renderBulletsGo_cons_ok hok
  obtain ⟨t1, l2, f2, h1, hok2, hl1, hf1⟩ := renderBulletsGo_cons_ok hok1
  obtain ⟨t2, l3, f3, h2, hok3, hl2, hf2⟩ := renderBulletsGo_cons_ok hok2
  have hnil : l3 = [] ∧ f3 = [] := by
    simp only [renderBulletsGo, Except.ok.injEq, Prod.mk.injEq] at hok3
    exact ⟨hok3.1.symm, hok3.2.symm⟩
  obtain ⟨hl3, hf3⟩ := hnil
  refine ⟨b0, b1, b2, t0, t1, t2, rfl, h0, h1, h2, ?_, ?_,
    tupleShown_mk 1 t0, tupleShown_mk 2 t1, tupleShown_mk 3 t2⟩
  · rw [hf0, hf1, hf2, hf3]
  · rw [hl0, hl1, hl2, hl3]
    simp

theorem bullet_renderings_agree_witness :
    ∃ b0 b1 b2 t0 t1 t2,
      [JValue.obj [], JValue.obj [], JValue.obj []] = [b0, b1, b2] ∧
      bulletFields b0 = .ok t0 ∧ bulletFields b1 = .ok t1 ∧
      bulletFields b2 = .ok t2 ∧
      flatsW = [mkFlatBlock t0, mkFlatBlock t1, mkFlatBlock t2] ∧
      linesW = mkTxtLines 1 t0 ++ [[]] ++ mkTxtLines 2 t1 ++ [[]] ++
        mkTxtLines 3 t2 ∧
      tupleShown t0 (mkFlatBlock t0) (mkTxtLines 1 t0) ∧
      tupleShown t1 (mkFlatBlock t1) (mkTxtLines 2 t1) ∧
      tupleShown t2 (mkFlatBlock t2) (mkTxtLines 3 t2) :=
  bullet_renderings_agree [JValue.obj [], JValue.obj [], JValue.obj []]
    linesW flatsW rfl rfl

theorem normalizeBullets_spec_witness :
    (normalizeBullets [JValue.null] = [JValue.null] ++ List.replicate 2 blank_item ∧
      (normalizeBullets [JValue.null]).length = 3) ∧
    (normalizeBullets [JValue.null, .null, .null, .null] =
        [JValue.null, .null, .null, .null].take 3 ∧
      (normalizeBullets [JValue.null, .null, .null, .null]).length = 3) :=
  ⟨(normalizeBullets_spec [JValue.null]).1 (by decide),
   (normalizeBullets_spec [JValue.null, .null, .null, .null]).2 (by decide)⟩

end Saharan
